import Mathlib

/-!
Verification of the ppt_generator pipeline: a shallow embedding of the
slide-skeleton synthesis, content enhancement, query execution, chart
selection/rendering and layout code, together with theorems settling the
specification's testable properties.

Python strings are modelled as `List Char`; pandas dataframes as a record
of column names, per-column numeric-dtype flags and rows of values; the
LLM collaborator's responses and the host's expression evaluator are
explicit parameters of the functions that call them.
-/

namespace PptGen

/-! ## Python string primitives -/

/-- ASCII whitespace recognised by Python's `str.strip()` and the regex
class `\s` (restricted to ASCII, which is all the call sites produce). -/
def isPyWs (c : Char) : Bool :=
  c = ' ' ∨ c = '\t' ∨ c = '\n' ∨ c = '\r' ∨ c = '\x0b' ∨ c = '\x0c'

/-- Python `str.strip()`. -/
def pyStrip (s : List Char) : List Char :=
  ((s.dropWhile isPyWs).reverse.dropWhile isPyWs).reverse

/-- Python `str.lower()` (ASCII fragment). -/
def pyLower (s : List Char) : List Char :=
  s.map Char.toLower

/-- `pyStrip` lifted to `String`. -/
def pyStripStr (s : String) : String :=
  String.mk (pyStrip s.data)

/-- `pyLower` lifted to `String`. -/
def pyLowerStr (s : String) : String :=
  String.mk (pyLower s.data)

/-- Python's substring containment `sub in hay`. -/
def containsSub (sub : List Char) : List Char → Bool
  | [] => sub.isPrefixOf []
  | c :: rest => sub.isPrefixOf (c :: rest) || containsSub sub rest

/-- `containsSub` lifted to `String`. -/
def containsStr (hay sub : String) : Bool :=
  containsSub sub.data hay.data

/-- Python `str.split(sep)` for a non-empty separator, fuelled by the
length of the string (each step consumes at least one character). -/
def splitOnSub (sep : List Char) : Nat → List Char → List (List Char)
  | 0, s => [s]
  | fuel + 1, s =>
    match s with
    | [] => [[]]
    | c :: rest =>
      if sep ≠ [] ∧ sep.isPrefixOf (c :: rest) then
        [] :: splitOnSub sep fuel ((c :: rest).drop sep.length)
      else
        match splitOnSub sep fuel rest with
        | p :: ps => (c :: p) :: ps
        | [] => [[c]]

/-- Python `s.find(c)`: index of the first occurrence, `-1` if absent. -/
def pyFind (c : Char) (s : List Char) : Int :=
  match s.findIdx? (· = c) with
  | some i => (i : Int)
  | none => -1

/-- Python `s.rfind(c)`: index of the last occurrence, `-1` if absent. -/
def pyRFind (c : Char) (s : List Char) : Int :=
  match s.reverse.findIdx? (· = c) with
  | some i => (s.length : Int) - 1 - (i : Int)
  | none => -1

/-- Python slicing `s[a:b]` for `0 ≤ a ≤ b`. -/
def pySlice (s : List Char) (a b : Nat) : List Char :=
  (s.take b).drop a

/-! ## Values and dataframes -/

/-- A cell value of a dataframe: numbers and everything else (text). -/
inductive Val where
  | vInt : Int → Val
  | vStr : String → Val
deriving DecidableEq

/-- A dataframe: column names, a per-column numeric-dtype flag (pandas
dtypes are column-wide, so truncation preserves them), and the rows. -/
structure DataFrame where
  cols : List String
  dtypes : List Bool
  rows : List (List Val)
deriving DecidableEq

/-- pandas `df.head(n)`: first `n` rows, columns and dtypes unchanged. -/
def dfHead (df : DataFrame) (n : Nat) : DataFrame :=
  { df with rows := df.rows.take n }

/-- Numeric sort key of a cell (only ever applied to numeric-dtype
columns, where every cell is `vInt`). -/
def key : Val → Int
  | .vInt n => n
  | .vStr _ => 0

/-- Cell of a row at column index `j`. -/
def getCol (r : List Val) (j : Nat) : Val :=
  r.getD j (.vStr "")

/-- Row ordering used by `nlargest`: row `a` comes before row `b` when
its value in column `j` is at least `b`'s. -/
def rowGE (j : Nat) (a b : List Val) : Prop :=
  key (getCol b j) ≤ key (getCol a j)

instance (j : Nat) : DecidableRel (rowGE j) :=
  fun a b => inferInstanceAs (Decidable (_ ≤ _))

instance (j : Nat) : IsTotal (List Val) (rowGE j) :=
  ⟨fun a b => (Int.le_total (key (getCol a j)) (key (getCol b j))).symm⟩

instance (j : Nat) : IsTrans (List Val) (rowGE j) :=
  ⟨fun _ _ _ h1 h2 => le_trans h2 h1⟩

/-- pandas `df.nlargest(n, col)`: the `n` rows with the largest values in
column `j`, ties resolved towards earlier rows (stable descending sort,
`keep='first'`). -/
def nlargest (rows : List (List Val)) (j n : Nat) : List (List Val) :=
  (List.insertionSort (rowGE j) rows).take n

/-! ## csv_processor.execute_pandas_query -/

/-- One removal pass of `re.sub(r'<fence>.*?\n|<fence>', '', query)` where
the fence is three backticks: at a fence, the non-greedy first alternative
eats through the first following newline when one exists, otherwise just
the fence itself; other characters are copied. Fuelled by string length. -/
def subFences : Nat → List Char → List Char
  | 0, s => s
  | fuel + 1, s =>
    match s with
    | [] => []
    | c :: rest =>
      if ['`', '`', '`'].isPrefixOf (c :: rest) then
        let after := (c :: rest).drop 3
        match after.findIdx? (· = '\n') with
        | some i => subFences fuel (after.drop (i + 1))
        | none => subFences fuel after
      else c :: subFences fuel rest

/-- The cleanup applied to the query string before evaluation
(`re.sub(...)` then `.strip()`). -/
def cleanQuery (query : String) : String :=
  String.mk (pyStrip (subFences query.data.length query.data))

/-- Result of evaluating a query expression: a dataframe, a series
(name, dtype flag, values) or a scalar. -/
inductive PyResult where
  | rdf : DataFrame → PyResult
  | series : String → Bool → List Val → PyResult
  | scalar : Val → PyResult
deriving DecidableEq

/-- The normalization in `execute_pandas_query`: `Series.to_frame()` for
series, `pd.DataFrame([result])` for scalars. -/
def normalizeResult : PyResult → DataFrame
  | .rdf d => d
  | .series n num vs => { cols := [n], dtypes := [num], rows := vs.map (fun v => [v]) }
  | .scalar v =>
    { cols := ["0"], dtypes := [match v with | .vInt _ => true | .vStr _ => false],
      rows := [[v]] }

/-- `execute_pandas_query(df, query)`, with the host's `eval` modelled as
an explicit fallible evaluator applied to the cleaned query. Any
evaluation error is caught and the first 10 rows of `df` are returned. -/
def execute_pandas_query (df : DataFrame) (query : String)
    (evalFn : String → DataFrame → Except String PyResult) : DataFrame :=
  match evalFn (cleanQuery query) df with
  | .ok r => normalizeResult r
  | .error _ => dfHead df 10

/-! ## ppt_generator layout: SlideConfig and percent_to_inches -/

/-- `SlideConfig.SLIDE_WIDTH` (inches). -/
def SLIDE_WIDTH : ℚ := 10

/-- `SlideConfig.SLIDE_HEIGHT` (inches). -/
def SLIDE_HEIGHT : ℚ := 7.5

/-- `PPTTemplate.percent_to_inches`: percentage of the fixed slide
dimensions, in inches (the `Inches` unit wrapper is the identity on the
numeric value). -/
def percent_to_inches (percent_value : ℚ) (dimension_type : String) : ℚ :=
  if dimension_type = "width" then
    percent_value / 100 * SLIDE_WIDTH
  else
    percent_value / 100 * SLIDE_HEIGHT

/-! ## PPTTemplate.create_chart_slide -/

/-- Abstract result of `create_chart_slide`: the title box, the optional
embedded chart picture and the bullet text box, with their geometry from
`SlideConfig.CHART_SLIDE` (left, top, width, height in inches). -/
structure ChartSlideModel where
  title : String
  titleBox : ℚ × ℚ × ℚ × ℚ
  chartImage : Option (String × (ℚ × ℚ × ℚ × ℚ))
  textBox : ℚ × ℚ × ℚ × ℚ
  bullets : List String
deriving DecidableEq

/-- `PPTTemplate.create_chart_slide(prs, title_text, chart_path,
bullet_points)`: the chart picture is added only when a file exists at
`chart_path` (`os.path.exists`, modelled as an explicit predicate); the
title box and the bullet text box are always produced. -/
def create_chart_slide (fileExists : String → Bool)
    (title_text chart_path : String) (bullet_points : List String) : ChartSlideModel :=
  { title := title_text,
    titleBox := (percent_to_inches 5 "width", percent_to_inches 10 "height",
                 percent_to_inches 90 "width", percent_to_inches 12 "height"),
    chartImage :=
      if fileExists chart_path then
        some (chart_path, (percent_to_inches 70 "width", percent_to_inches 24 "height",
                           percent_to_inches 45 "width", percent_to_inches 60 "height"))
      else none,
    textBox := (percent_to_inches 5 "width", percent_to_inches 24 "height",
                percent_to_inches 40 "width", percent_to_inches 60 "height"),
    bullets := bullet_points.map (fun b => "• " ++ b) }

/-! ## chart_generator -/

/-- `determine_chart_type`: the LLM classifier's raw reply (an explicit
parameter) is stripped, lowercased, and normalized to `"bar"` unless it is
exactly `"bar"` or `"pie"`. -/
def determine_chart_type (aiResp : String) : String :=
  let response := pyLowerStr (pyStripStr aiResp)
  if response = "bar" ∨ response = "pie" then response else "bar"

/-- Which rendering backend produced the chart image. -/
inductive Backend where
  | plotly
  | mpl
deriving DecidableEq

/-- Observable content of a rendered chart: the backend that drew it, the
chart type drawn, the rows whose data is encoded in the figure, and the
wedge weights for pie charts. -/
structure ChartRender where
  backend : Backend
  ctype : Option String
  encRows : List (List Val)
  sizes : Option (List Val)
deriving DecidableEq

/-- Drawing body of `create_enhanced_matplotlib_chart` once the chart
type is decided (source lines 128–185): with fewer than two columns
nothing is plotted; bar charts encode every row of `df`; pie charts
encode `df.nlargest(8, y_col)` when the second column's dtype is numeric
and `df.head(8)` with equal unit weights otherwise. -/
def mplDraw (df : DataFrame) (ct : String) : ChartRender :=
  if 2 ≤ df.cols.length then
    if ct = "bar" then
      { backend := .mpl, ctype := some ct, encRows := df.rows, sizes := none }
    else if ct = "pie" then
      if df.dtypes.getD 1 false then
        { backend := .mpl, ctype := some ct, encRows := nlargest df.rows 1 8,
          sizes := some ((nlargest df.rows 1 8).map (fun r => getCol r 1)) }
      else
        { backend := .mpl, ctype := some ct, encRows := df.rows.take 8,
          sizes := some ((df.rows.take 8).map (fun _ => Val.vInt 1)) }
    else { backend := .mpl, ctype := some ct, encRows := [], sizes := none }
  else { backend := .mpl, ctype := some ct, encRows := [], sizes := none }

/-- `create_enhanced_matplotlib_chart(df, question, chart_path,
chart_type)`: with `chart_type=None` the classifier is consulted (its
reply is the `aiResp` parameter), then the figure is drawn. -/
def create_enhanced_matplotlib_chart (df : DataFrame) (chartType : Option String)
    (aiResp : String) : ChartRender :=
  mplDraw df (chartType.getD (determine_chart_type aiResp))

/-- The data preparation in `create_plotly_chart` (lines 59–64): with two
or more columns, x/y are columns 0/1; otherwise an `Index` column of row
numbers is appended and becomes x, the single original column (index 0)
being y. Returns the prepared dataframe and the y column index. -/
def prepare (df : DataFrame) : DataFrame × Nat :=
  if 2 ≤ df.cols.length then (df, 1)
  else
    ({ cols := df.cols ++ ["Index"], dtypes := df.dtypes ++ [true],
       rows := df.rows.enum.map (fun p => p.2 ++ [Val.vInt p.1]) }, 0)

/-- The readability truncation in `create_plotly_chart` (lines 67–70):
`df.head(25)` when the dataframe has more than 25 rows. -/
def sample25 (df : DataFrame) : DataFrame :=
  if 25 < df.rows.length then dfHead df 25 else df

/-- The hardcoded per-slide chart type override in `create_plotly_chart`
(source lines 52–56): "slide 3" in the lowercased question or "chart_3"
in the path forces pie; otherwise "slide 4"/"chart_4" forces bar;
otherwise the passed type stands. -/
def overrideType (question chart_path : String) (chartType : Option String) : Option String :=
  if containsStr (pyLowerStr question) "slide 3" ∨ containsStr chart_path "chart_3" then
    some "pie"
  else if containsStr (pyLowerStr question) "slide 4" ∨ containsStr chart_path "chart_4" then
    some "bar"
  else chartType

/-- The Plotly try-block of `create_plotly_chart` (source lines 75–121)
on the prepared, truncated dataframe `dfs` with y column index `yI`: an
exception (`plotlyRaises`) or a type that builds no figure falls back to
the matplotlib backend with the same data and type; otherwise the bar or
pie figure is drawn (pie takes `nlargest(8, y)` when the y dtype is
numeric, `head(8)` otherwise). -/
def plotlyTry (plotlyRaises : Bool) (dfs : DataFrame) (yI : Nat) (ct : Option String)
    (aiResp : String) : ChartRender :=
  if plotlyRaises then create_enhanced_matplotlib_chart dfs ct aiResp
  else if ct = some "bar" then
    { backend := .plotly, ctype := some "bar", encRows := dfs.rows, sizes := none }
  else if ct = some "pie" then
    if dfs.dtypes.getD yI false then
      { backend := .plotly, ctype := some "pie", encRows := nlargest dfs.rows yI 8,
        sizes := some ((nlargest dfs.rows yI 8).map (fun r => getCol r yI)) }
    else
      { backend := .plotly, ctype := some "pie", encRows := dfs.rows.take 8,
        sizes := some ((dfs.rows.take 8).map (fun r => getCol r yI)) }
  else create_enhanced_matplotlib_chart dfs ct aiResp

/-- `create_plotly_chart(df, question, chart_path, chart_type)`.
`plotlyAvailable` models the import-time `PLOTLY_AVAILABLE` flag: when
false the function immediately delegates to the matplotlib backend
without passing `chart_type` (source line 48). Otherwise the hardcoded
per-slide override replaces `chart_type`, the data is prepared and
truncated, and the Plotly try-block runs. -/
def create_plotly_chart (plotlyAvailable plotlyRaises : Bool) (df : DataFrame)
    (question chart_path : String) (chartType : Option String) (aiResp : String) :
    ChartRender :=
  if plotlyAvailable = false then
    create_enhanced_matplotlib_chart df none aiResp
  else
    plotlyTry plotlyRaises (sample25 (prepare df).1) (prepare df).2
      (overrideType question chart_path chartType) aiResp

/-- `generate_chart(df, question, output_path)`: one classifier call
(`aiResp1`) decides the initial type, then `create_plotly_chart` runs
(`aiResp2` is the classifier reply for any further matplotlib-side
call). -/
def generate_chart (plotlyAvailable plotlyRaises : Bool) (df : DataFrame)
    (question output_path : String) (aiResp1 aiResp2 : String) : ChartRender :=
  create_plotly_chart plotlyAvailable plotlyRaises df question output_path
    (some (determine_chart_type aiResp1)) aiResp2

/-! ## ppt_generator.enhance_slide_content -/

/-- Membership in the regex character class `[•\-*►▪▫◦‣\d+\.\s]`. -/
def isBulletChar (c : Char) : Bool :=
  c = '•' ∨ c = '-' ∨ c = '*' ∨ c = '►' ∨ c = '▪' ∨ c = '▫' ∨ c = '◦' ∨ c = '‣' ∨
    c.isDigit ∨ c = '+' ∨ c = '.' ∨ isPyWs c

/-- Per-line cleanup in `enhance_slide_content`: `line.strip()`, then
`re.sub(r'^[•\-*►▪▫◦‣\d+\.\s]+', '', line).strip()` (removing the
longest leading run of bullet-class characters). -/
def cleanLine (l : List Char) : List Char :=
  pyStrip ((pyStrip l).dropWhile isBulletChar)

/-- The usable enhanced points extracted from the LLM reply: the reply is
stripped, split on newlines, each line cleaned, and lines that are empty
or at most 10 characters long are discarded. -/
def usableLines (response : String) : List String :=
  ((pyStrip response.data).splitOn '\n').filterMap fun l =>
    let c := cleanLine l
    if c ≠ [] ∧ 10 < c.length then some (String.mk c) else none

/-- `enhance_slide_content(slide, analysis_result)` restricted to the
slide's content: the LLM reply (an explicit parameter) is cleaned into
`usableLines`; the slide's content becomes the first 4 usable lines, or
the first 4 original outline points when no usable line remains. -/
def enhance_slide_content (outline : List String) (response : String) : List String :=
  let enhanced_points := usableLines response
  if enhanced_points ≠ [] then enhanced_points.take 4 else outline.take 4

/-! ## JSON values and `json.loads` -/

/-- A parsed JSON value (numbers keep their source numeral text; no claim
inspects numeric values). -/
inductive Json where
  | jNull : Json
  | jBool : Bool → Json
  | jNum : String → Json
  | jStr : String → Json
  | jArr : List Json → Json
  | jObj : List (String × Json) → Json

/-- JSON whitespace (`json.loads` strict mode). -/
def isJsonWs (c : Char) : Bool :=
  c = ' ' ∨ c = '\t' ∨ c = '\n' ∨ c = '\r'

/-- Drop leading JSON whitespace. -/
def skipWs : List Char → List Char
  | [] => []
  | c :: rest => if isJsonWs c then skipWs rest else c :: rest

/-- JSON string escape map (after a backslash). -/
def escMap : Char → Option Char
  | '"' => some '"'
  | '\\' => some '\\'
  | '/' => some '/'
  | 'b' => some '\x08'
  | 'f' => some '\x0c'
  | 'n' => some '\n'
  | 'r' => some '\r'
  | 't' => some '\t'
  | _ => none

/-- Hexadecimal digit value, `none` for non-hex characters. -/
def hexVal (c : Char) : Option Nat :=
  if c.isDigit then some (c.toNat - 48)
  else if 'a' ≤ c ∧ c ≤ 'f' then some (c.toNat - 87)
  else if 'A' ≤ c ∧ c ≤ 'F' then some (c.toNat - 55)
  else none

/-- Body of a JSON string after the opening quote: content and remainder.
Strict mode: raw control characters are rejected, as are unknown
escapes. Fuelled by string length. -/
def parseStringBody : Nat → List Char → Option (List Char × List Char)
  | 0, _ => none
  | fuel + 1, s =>
    match s with
    | [] => none
    | c :: rest =>
      if c = '"' then some ([], rest)
      else if c = '\\' then
        match rest with
        | [] => none
        | 'u' :: h1 :: h2 :: h3 :: h4 :: rest2 =>
          match hexVal h1, hexVal h2, hexVal h3, hexVal h4 with
          | some a, some b, some cc, some d =>
            (parseStringBody fuel rest2).map fun p =>
              (Char.ofNat (((a * 16 + b) * 16 + cc) * 16 + d) :: p.1, p.2)
          | _, _, _, _ => none
        | e :: rest2 =>
          match escMap e with
          | some ec => (parseStringBody fuel rest2).map fun p => (ec :: p.1, p.2)
          | none => none
      else if c.toNat < 32 then none
      else (parseStringBody fuel rest).map fun p => (c :: p.1, p.2)

/-- A JSON number: `-? (0 | [1-9][0-9]*) (.[0-9]+)? ([eE][+-]?[0-9]+)?`.
Returns the numeral's characters and the remainder. -/
def parseNumber (s : List Char) : Option (List Char × List Char) :=
  let (negPart, s1) :=
    match s with
    | '-' :: r => (['-'], r)
    | _ => (([] : List Char), s)
  let ds := s1.takeWhile Char.isDigit
  let r1 := s1.drop ds.length
  if ds = [] then none
  else if ds.head? = some '0' ∧ ds.length ≠ 1 then none
  else
    let (fracPart, r2) :=
      match r1 with
      | '.' :: r =>
        let fs := r.takeWhile Char.isDigit
        if fs = [] then (([] : List Char), r1) else ('.' :: fs, r.drop fs.length)
      | _ => (([] : List Char), r1)
    match r2 with
    | e :: r3 =>
      if e = 'e' ∨ e = 'E' then
        let (sgn, r4) :=
          match r3 with
          | '+' :: r => ((['+'] : List Char), r)
          | '-' :: r => ((['-'] : List Char), r)
          | _ => (([] : List Char), r3)
        let es := r4.takeWhile Char.isDigit
        if es = [] then none
        else some (negPart ++ ds ++ fracPart ++ e :: sgn ++ es, r4.drop es.length)
      else some (negPart ++ ds ++ fracPart, r2)
    | [] => some (negPart ++ ds ++ fracPart, r2)

mutual

/-- Parse one JSON value; fuelled (a fuel of string length + 1 always
suffices because every recursion level first consumes a character). -/
def parseValue : Nat → List Char → Option (Json × List Char)
  | 0, _ => none
  | fuel + 1, s =>
    match skipWs s with
    | [] => none
    | '{' :: rest =>
      match skipWs rest with
      | '}' :: r => some (.jObj [], r)
      | r => (parseMembers fuel r).map fun p => (.jObj p.1, p.2)
    | '[' :: rest =>
      match skipWs rest with
      | ']' :: r => some (.jArr [], r)
      | r => (parseElems fuel r).map fun p => (.jArr p.1, p.2)
    | '"' :: rest =>
      (parseStringBody (rest.length + 1) rest).map fun p => (.jStr (String.mk p.1), p.2)
    | 't' :: rest =>
      if ['r', 'u', 'e'].isPrefixOf rest then some (.jBool true, rest.drop 3) else none
    | 'f' :: rest =>
      if ['a', 'l', 's', 'e'].isPrefixOf rest then some (.jBool false, rest.drop 4) else none
    | 'n' :: rest =>
      if ['u', 'l', 'l'].isPrefixOf rest then some (.jNull, rest.drop 3) else none
    | c :: rest =>
      if c = '-' ∨ c.isDigit then
        (parseNumber (c :: rest)).map fun p => (.jNum (String.mk p.1), p.2)
      else none

/-- Parse a non-empty member list of a JSON object, up to and including
the closing brace. -/
def parseMembers : Nat → List Char → Option (List (String × Json) × List Char)
  | 0, _ => none
  | fuel + 1, s =>
    match skipWs s with
    | '"' :: r =>
      match parseStringBody (r.length + 1) r with
      | some (k, r2) =>
        match skipWs r2 with
        | ':' :: r3 =>
          match parseValue fuel r3 with
          | some (v, r4) =>
            match skipWs r4 with
            | ',' :: r5 =>
              (parseMembers fuel r5).map fun p => ((String.mk k, v) :: p.1, p.2)
            | '}' :: r5 => some ([(String.mk k, v)], r5)
            | _ => none
          | none => none
        | _ => none
      | none => none
    | _ => none

/-- Parse a non-empty element list of a JSON array, up to and including
the closing bracket. -/
def parseElems : Nat → List Char → Option (List Json × List Char)
  | 0, _ => none
  | fuel + 1, s =>
    match parseValue fuel s with
    | some (v, r) =>
      match skipWs r with
      | ',' :: r2 => (parseElems fuel r2).map fun p => (v :: p.1, p.2)
      | ']' :: r2 => some ([v], r2)
      | _ => none
    | none => none

end

/-- `json.loads`: parse one JSON document and require only whitespace to
follow. -/
def json_loads (s : List Char) : Option Json :=
  match parseValue (s.length + 1) s with
  | some (j, rest) => if skipWs rest = [] then some j else none
  | none => none

/-! ## ppt_generator.create_ppt_skeleton -/

/-- Python dict lookup for a dict built from an association list
(later bindings shadow earlier ones). -/
def pyDictGet {α : Type} : List (String × α) → String → Option α
  | [], _ => none
  | (k, v) :: rest, s =>
    match pyDictGet rest s with
    | some r => some r
    | none => if k = s then some v else none

/-- Field access on a parsed JSON object. -/
def objGet (j : Json) (k : String) : Option Json :=
  match j with
  | .jObj ms => pyDictGet ms k
  | _ => none

/-- The `slides` array of a skeleton value, when present. -/
def slidesOf (j : Json) : Option (List Json) :=
  match objGet j "slides" with
  | some (.jArr l) => some l
  | _ => none

/-- The `type` field of a slide value, when it is a string. -/
def slideTypeOf (s : Json) : Option String :=
  match objGet s "type" with
  | some (.jStr t) => some t
  | _ => none

/-- The fixed 5-slide type template required of a skeleton:
title, content, chart, chart, content. -/
def skeletonOk (j : Json) : Bool :=
  match slidesOf j with
  | some l =>
    decide (l.map slideTypeOf =
      [some "title", some "content", some "chart", some "chart", some "content"])
  | none => false

/-- The response cleanup in `create_ppt_skeleton`: strip; when a
triple-backtick fence occurs take `split('<fence>')[1]`, strip, and drop
a leading `json` tag; then slice from the first `{` to the last `}`
inclusive when that range is non-empty. -/
def cleanSkeletonResponse (raw : String) : List Char :=
  let r0 := pyStrip raw.data
  let r1 :=
    if containsSub ['`', '`', '`'] r0 then
      let part := (splitOnSub ['`', '`', '`'] (r0.length + 1) r0).getD 1 []
      let part := pyStrip part
      if ['j', 's', 'o', 'n'].isPrefixOf part then pyStrip (part.drop 4) else part
    else r0
  let start := pyFind '{' r1
  let stop := pyRFind '}' r1 + 1
  if start ≠ -1 ∧ start < stop then pySlice r1 start.toNat stop.toNat else r1

/-- Python string slicing `s[:n]` lifted to `String`. -/
def strTake (n : Nat) (s : String) : String :=
  String.mk (s.data.take n)

/-- The hardcoded fallback skeleton returned by `create_ppt_skeleton`
when JSON parsing of the cleaned response fails; slide 1's title embeds
the first 35 characters of the original question. -/
def fallback_skeleton (question : String) : Json :=
  .jObj [("slides", .jArr [
    .jObj [("slide_no", .jNum "1"),
           ("title", .jStr ("Executive Summary: " ++ strTake 35 question)),
           ("type", .jStr "title"),
           ("content", .jArr [.jStr "Key insights and findings from comprehensive data analysis"])],
    .jObj [("slide_no", .jNum "2"),
           ("title", .jStr "Data Overview & Analysis Approach"),
           ("type", .jStr "content"),
           ("content", .jArr [.jStr "Dataset scope and key characteristics",
                              .jStr "Analytical methodology and tools applied",
                              .jStr "Data quality assessment and validation"])],
    .jObj [("slide_no", .jNum "3"),
           ("title", .jStr "Primary Data Insights"),
           ("type", .jStr "chart"),
           ("content", .jArr [.jStr "Most significant patterns discovered in data",
                              .jStr "Critical trends affecting business outcomes",
                              .jStr "Key performance indicators and metrics"])],
    .jObj [("slide_no", .jNum "4"),
           ("title", .jStr "Detailed Analysis Results"),
           ("type", .jStr "chart"),
           ("content", .jArr [.jStr "In-depth examination of key variables",
                              .jStr "Correlation and causation relationships found",
                              .jStr "Predictive insights and future implications"])],
    .jObj [("slide_no", .jNum "5"),
           ("title", .jStr "Strategic Recommendations"),
           ("type", .jStr "content"),
           ("content", .jArr [.jStr "Primary business recommendations based on data",
                              .jStr "Immediate action items for implementation",
                              .jStr "Long-term strategic opportunities identified"])]])]

/-- `create_ppt_skeleton(analysis_result, template_name)` as a function
of the LLM response (explicit parameter) and the original question: the
cleaned response is parsed with `json.loads`; a successful parse is
returned verbatim, a failed parse yields the hardcoded fallback. -/
def create_ppt_skeleton (response question : String) : Json :=
  match json_loads (cleanSkeletonResponse response) with
  | some j => j
  | none => fallback_skeleton question

/-! ## ppt_generator template scanning and loading -/

/-- A loaded presentation document: the template file it came from (none
for the built-in blank default) and its slides. -/
structure Prs where
  templatePath : Option String
  slides : List Nat
deriving DecidableEq

/-- `Presentation()`: the built-in blank default document. -/
def defaultPrs : Prs :=
  { templatePath := none, slides := [] }

/-- The slide-clearing loop in `load_pptx_template`. -/
def clearSlides (p : Prs) : Prs :=
  { p with slides := [] }

/-- `pathlib.Path(p).stem`: final path component without its last
suffix (a leading dot does not start a suffix). -/
def pathStem (p : String) : List Char :=
  let name := (splitOnSub ['/'] (p.data.length + 1) p.data).getLastD []
  match (name.reverse.findIdx? (· = '.')).map (fun i => name.length - 1 - i) with
  | some i => if i = 0 then name else name.take i
  | none => name

/-- Template-name normalization in `scan_pptx_templates`:
`Path(f).stem.lower().replace(" ", "_").replace("-", "_")`. -/
def normalizeTemplateName (p : String) : String :=
  String.mk ((pathStem p).map fun c =>
    if c = ' ' ∨ c = '-' then '_' else Char.toLower c)

/-- `scan_pptx_templates`: the glob result (an explicit parameter) is
turned into a name → path dict; when no template file exists the dict is
`{"default": None}`. -/
def scan_pptx_templates (globResult : List String) : List (String × Option String) :=
  let template_files := globResult.map fun f => (normalizeTemplateName f, some f)
  if template_files.isEmpty then [("default", none)] else template_files

/-- `load_pptx_template(template_name)`: the requested name is
lowercased; when it names a scanned template file that loads
successfully, that document is returned with its slides cleared; a name
absent from the scan, a `None` entry, or a load error all yield the
built-in blank default (never an error). `loadPrs` models
`Presentation(path)` together with the slide-clearing loop's possible
failure. -/
def load_pptx_template (globResult : List String)
    (loadPrs : String → Except String Prs) (template_name : String) : Prs :=
  match pyDictGet (scan_pptx_templates globResult) (pyLowerStr template_name) with
  | some (some path) =>
    match loadPrs path with
    | .ok p => clearSlides p
    | .error _ => defaultPrs
  | some none => defaultPrs
  | none => defaultPrs

/-! ## Concrete fixtures used by witnesses and counterexamples -/

/-- A small result table: two columns, the second numeric. -/
def dfThree : DataFrame :=
  { cols := ["region", "sales"], dtypes := [false, true],
    rows := [[.vStr "north", .vInt 5], [.vStr "south", .vInt 9], [.vStr "west", .vInt 7]] }

/-- A 26-row numeric result table (one row beyond the 25-row cap). -/
def dfBig26 : DataFrame :=
  { cols := ["a", "b"], dtypes := [true, true],
    rows := (List.range 26).map fun i => [Val.vInt i, Val.vInt i] }

/-- An evaluator that always raises, modelling a query whose evaluation
fails. -/
def evalBoom : String → DataFrame → Except String PyResult :=
  fun _ _ => .error "boom"

/-- An LLM reply with two usable enhanced lines (both longer than 10
characters after cleanup). -/
def twoLineResponse : String :=
  "Alpha beta gamma delta line\nSecond usable line here ok"

/-- A syntactically valid JSON skeleton reply whose `slides` array is
empty. -/
def emptySlidesResponse : String :=
  "\x7b\"slides\": []\x7d"

/-! ## Helper lemmas -/

/-- The matplotlib drawing body draws exactly the chart type it is
given. -/
theorem mplDraw_ctype (df : DataFrame) (c : String) :
    (mplDraw df c).ctype = some c := by
  unfold mplDraw
  repeat' split
  all_goals rfl

/-- The matplotlib backend draws exactly the chart type it is given. -/
theorem mpl_ctype (df : DataFrame) (c : String) (a : String) :
    (create_enhanced_matplotlib_chart df (some c) a).ctype = some c :=
  mplDraw_ctype df c

/-- The readability truncation always yields the first 25 rows. -/
theorem sample25_rows (df : DataFrame) : (sample25 df).rows = df.rows.take 25 := by
  unfold sample25 dfHead
  split
  · rfl
  · exact (List.take_of_length_le (by omega)).symm

/-- `nlargest` returns at most `n` rows. -/
theorem nlargest_length_le (rows : List (List Val)) (j n : Nat) :
    (nlargest rows j n).length ≤ n :=
  List.length_take_le n _

/-- `nlargest` returns no more rows than it was given. -/
theorem nlargest_length_le_rows (rows : List (List Val)) (j n : Nat) :
    (nlargest rows j n).length ≤ rows.length := by
  unfold nlargest
  calc ((List.insertionSort (rowGE j) rows).take n).length
      ≤ (List.insertionSort (rowGE j) rows).length := List.length_take_le' ..
    _ = rows.length := (List.perm_insertionSort _ _).length_eq

/-- Every row `nlargest` returns was among the rows given to it. -/
theorem nlargest_mem {rows : List (List Val)} {j n : Nat} {x : List Val}
    (hx : x ∈ nlargest rows j n) : x ∈ rows := by
  unfold nlargest at hx
  exact (List.perm_insertionSort (rowGE j) rows).subset (List.mem_of_mem_take hx)

/-- The matplotlib drawing body only ever encodes rows of the dataframe
it is given, and no more of them than there are. -/
theorem mplDraw_encRows_sub (df : DataFrame) (c : String) :
    (mplDraw df c).encRows.length ≤ df.rows.length ∧
    ∀ r ∈ (mplDraw df c).encRows, r ∈ df.rows := by
  unfold mplDraw
  repeat' split
  · exact ⟨le_refl _, fun r hr => hr⟩
  · exact ⟨nlargest_length_le_rows .., fun r hr => nlargest_mem hr⟩
  · exact ⟨le_trans (List.length_take_le' ..) (le_refl _), fun r hr => List.mem_of_mem_take hr⟩
  · exact ⟨Nat.zero_le _, fun r hr => absurd hr (List.not_mem_nil r)⟩
  · exact ⟨Nat.zero_le _, fun r hr => absurd hr (List.not_mem_nil r)⟩

/-- The matplotlib drawing body always reports the matplotlib backend. -/
theorem mplDraw_backend (df : DataFrame) (c : String) :
    (mplDraw df c).backend = .mpl := by
  unfold mplDraw
  repeat' split
  all_goals rfl

/-- A pie chart drawn by the matplotlib body encodes at most 8 rows. -/
theorem mplDraw_pie_cap (df : DataFrame) (c : String) :
    (mplDraw df c).ctype = some "pie" → (mplDraw df c).encRows.length ≤ 8 := by
  unfold mplDraw
  repeat' split
  all_goals intro h
  · simp only [Option.some.injEq] at h
    simp_all
  · exact nlargest_length_le ..
  · exact List.length_take_le ..
  · exact Nat.zero_le _
  · exact Nat.zero_le _

/-- The Plotly try-block draws exactly the pie type when told to. -/
theorem plotlyTry_ctype_pie (raises : Bool) (dfs : DataFrame) (yI : Nat) (a : String) :
    (plotlyTry raises dfs yI (some "pie") a).ctype = some "pie" := by
  unfold plotlyTry
  split
  · exact mpl_ctype ..
  · rw [if_neg (by decide), if_pos rfl]
    split <;> rfl

/-- The Plotly try-block draws exactly the bar type when told to. -/
theorem plotlyTry_ctype_bar (raises : Bool) (dfs : DataFrame) (yI : Nat) (a : String) :
    (plotlyTry raises dfs yI (some "bar") a).ctype = some "bar" := by
  unfold plotlyTry
  split
  · exact mpl_ctype ..
  · rw [if_pos rfl]

/-- A pie chart produced by the Plotly try-block encodes at most 8
rows. -/
theorem plotlyTry_pie_cap (raises : Bool) (dfs : DataFrame) (yI : Nat) (ct : Option String)
    (a : String) :
    (plotlyTry raises dfs yI ct a).ctype = some "pie" →
    (plotlyTry raises dfs yI ct a).encRows.length ≤ 8 := by
  unfold plotlyTry
  split
  · exact mplDraw_pie_cap dfs (ct.getD (determine_chart_type a))
  · split
    · intro h
      simp at h
    · split
      · split
        · intro _
          exact nlargest_length_le ..
        · intro _
          exact List.length_take_le ..
      · exact mplDraw_pie_cap dfs (ct.getD (determine_chart_type a))

/-- The Plotly try-block only encodes rows of the dataframe it is given,
and no more of them than there are. -/
theorem plotlyTry_rows (raises : Bool) (dfs : DataFrame) (yI : Nat) (ct : Option String)
    (a : String) :
    (plotlyTry raises dfs yI ct a).encRows.length ≤ dfs.rows.length ∧
    ∀ r ∈ (plotlyTry raises dfs yI ct a).encRows, r ∈ dfs.rows := by
  unfold plotlyTry
  split
  · exact mplDraw_encRows_sub ..
  · split
    · exact ⟨le_refl _, fun r hr => hr⟩
    · split
      · split
        · exact ⟨nlargest_length_le_rows .., fun r hr => nlargest_mem hr⟩
        · exact ⟨List.length_take_le' .., fun r hr => List.mem_of_mem_take hr⟩
      · exact mplDraw_encRows_sub ..

/-- When the Plotly try-block reports the Plotly backend and a pie type,
the rows it encoded are exactly the source's pie selection. -/
theorem plotlyTry_pie_sel (raises : Bool) (dfs : DataFrame) (yI : Nat) (ct : Option String)
    (a : String) :
    (plotlyTry raises dfs yI ct a).backend = .plotly →
    (plotlyTry raises dfs yI ct a).ctype = some "pie" →
    (plotlyTry raises dfs yI ct a).encRows =
      (if dfs.dtypes.getD yI false = true then nlargest dfs.rows yI 8
       else dfs.rows.take 8) := by
  unfold plotlyTry
  split
  · intro hb
    rw [show create_enhanced_matplotlib_chart dfs ct a =
      mplDraw dfs (ct.getD (determine_chart_type a)) from rfl, mplDraw_backend] at hb
    exact absurd hb (by decide)
  · split
    · intro _ hc
      simp at hc
    · split
      · split
        · intro _ _
          rfl
        · intro _ _
          rfl
      · intro hb
        rw [show create_enhanced_matplotlib_chart dfs ct a =
          mplDraw dfs (ct.getD (determine_chart_type a)) from rfl, mplDraw_backend] at hb
        exact absurd hb (by decide)

/-! ## Claim theorems -/

/-- C9: the percentage-to-coordinate conversion is a pure deterministic
function of the percentage value and the dimension type, with
`percent_to_inches(p, "width") = p/100 × 10` inches and
`percent_to_inches(p, "height") = p/100 × 7.5` inches for the fixed
10 × 7.5 slide dimensions. -/
theorem percent_to_inches_formula :
    (∀ p : ℚ, percent_to_inches p "width" = p / 100 * 10) ∧
    (∀ p : ℚ, percent_to_inches p "height" = p / 100 * 7.5) ∧
    (∀ (p : ℚ) (d : String), percent_to_inches p d = percent_to_inches p d) := by
  refine ⟨fun p => ?_, fun p => ?_, fun p d => rfl⟩
  · rw [percent_to_inches, if_pos rfl, SLIDE_WIDTH]
  · rw [percent_to_inches, if_neg (by decide), SLIDE_HEIGHT]

/-- C7: when assembling a chart slide, the chart image is embedded iff a
file exists at the chart path at assembly time; a missing chart file does
not prevent the slide's title and bullet text from being produced. -/
theorem chart_slide_embeds_iff_file_exists :
    ∀ (fileExists : String → Bool) (title_text chart_path : String)
      (bullet_points : List String),
      ((create_chart_slide fileExists title_text chart_path bullet_points).chartImage ≠ none ↔
        fileExists chart_path = true) ∧
      (create_chart_slide fileExists title_text chart_path bullet_points).title = title_text ∧
      (create_chart_slide fileExists title_text chart_path bullet_points).bullets =
        bullet_points.map (fun b => "• " ++ b) := by
  intro fe t p bs
  refine ⟨?_, rfl, rfl⟩
  unfold create_chart_slide
  by_cases h : fe p <;> simp [h]

/-- C3: for every dataset and query whose evaluation raises,
`execute_pandas_query` catches the error and returns exactly the first
`min(10, row count)` rows of the original dataset with identical column
order. -/
theorem execute_pandas_query_error_fallback :
    ∀ (df : DataFrame) (query : String)
      (evalFn : String → DataFrame → Except String PyResult) (msg : String),
      evalFn (cleanQuery query) df = .error msg →
      execute_pandas_query df query evalFn = dfHead df 10 ∧
      (execute_pandas_query df query evalFn).cols = df.cols ∧
      (execute_pandas_query df query evalFn).rows = df.rows.take 10 ∧
      (execute_pandas_query df query evalFn).rows.length = min 10 df.rows.length := by
  intro df query evalFn msg h
  unfold execute_pandas_query
  rw [h]
  exact ⟨rfl, rfl, rfl, by simp [dfHead]⟩

/-- Witness for C3 at a concrete dataset and always-raising evaluator. -/
theorem execute_pandas_query_error_fallback_witness :
    evalBoom (cleanQuery "df.bogus") dfThree = .error "boom" ∧
    (execute_pandas_query dfThree "df.bogus" evalBoom = dfHead dfThree 10 ∧
     (execute_pandas_query dfThree "df.bogus" evalBoom).cols = dfThree.cols ∧
     (execute_pandas_query dfThree "df.bogus" evalBoom).rows = dfThree.rows.take 10 ∧
     (execute_pandas_query dfThree "df.bogus" evalBoom).rows.length =
       min 10 dfThree.rows.length) :=
  ⟨rfl, execute_pandas_query_error_fallback dfThree "df.bogus" evalBoom "boom" rfl⟩

/-- C8: requesting a template name whose lowercasing is not a key of the
scanned template dict, or one mapped to `None`, or one whose file fails
to load, always yields the built-in default blank presentation. -/
theorem load_pptx_template_default_fallback :
    ∀ (globResult : List String) (loadPrs : String → Except String Prs)
      (template_name : String),
      (pyDictGet (scan_pptx_templates globResult) (pyLowerStr template_name) = none ∨
       pyDictGet (scan_pptx_templates globResult) (pyLowerStr template_name) = some none ∨
       ∃ p msg,
         pyDictGet (scan_pptx_templates globResult) (pyLowerStr template_name) = some (some p) ∧
         loadPrs p = .error msg) →
      load_pptx_template globResult loadPrs template_name = defaultPrs := by
  intro glob loadPrs name h
  unfold load_pptx_template
  rcases h with h | h | ⟨p, msg, h1, h2⟩
  · rw [h]
  · rw [h]
  · rw [h1]
    show (match loadPrs p with
      | Except.ok p => clearSlides p
      | Except.error _ => defaultPrs) = defaultPrs
    rw [h2]

/-- Witness for C8: a name absent from an empty template folder falls
back to the default presentation. -/
theorem load_pptx_template_default_fallback_witness :
    pyDictGet (scan_pptx_templates []) (pyLowerStr "fancy") = none ∧
    load_pptx_template [] (fun _ => .error "e") "fancy" = defaultPrs :=
  ⟨rfl, load_pptx_template_default_fallback [] (fun _ => .error "e") "fancy" (Or.inl rfl)⟩

/-- C10: a slide with an empty outline whose LLM reply yields no usable
line ends enhancement with an empty content list, without error. -/
theorem enhance_empty_outline_stays_empty :
    ∀ response : String, usableLines response = [] →
      enhance_slide_content [] response = [] := by
  intro r h
  unfold enhance_slide_content
  simp [h]

/-- Witness for C10 at the empty response. -/
theorem enhance_empty_outline_stays_empty_witness :
    usableLines "" = [] ∧ enhance_slide_content [] "" = [] :=
  ⟨rfl, enhance_empty_outline_stays_empty "" rfl⟩

/-- C2 counterexample: a one-bullet outline (`N = 1`, so `min(N,4) = 1`)
with an LLM reply containing two usable lines is enhanced to two bullets,
exceeding the claimed `min(N,4)` upper bound — the code caps at 4 usable
lines, not at `min(N,4)`. -/
theorem enhance_min_bound_cex :
    (enhance_slide_content ["a"] twoLineResponse).length = 2 ∧
    min (["a"] : List String).length 4 = 1 ∧
    ¬(enhance_slide_content ["a"] twoLineResponse).length ≤
        min (["a"] : List String).length 4 := by
  refine ⟨rfl, rfl, by decide⟩

/-- C2 amended: for an outline of `N ≥ 1` bullets, enhancement returns
between 1 and 4 bullets (the first four usable cleaned lines — possibly
more than `N` of them) when at least one usable line remains, and exactly
the outline's first `min(N,4)` bullets when none does; the result is
never empty. -/
theorem enhance_never_empties_amended :
    ∀ (outline : List String) (response : String), outline ≠ [] →
      (usableLines response ≠ [] →
        enhance_slide_content outline response = (usableLines response).take 4 ∧
        1 ≤ (enhance_slide_content outline response).length ∧
        (enhance_slide_content outline response).length ≤ 4) ∧
      (usableLines response = [] →
        enhance_slide_content outline response = outline.take 4 ∧
        (enhance_slide_content outline response).length = min outline.length 4) ∧
      enhance_slide_content outline response ≠ [] := by
  intro o r ho
  unfold enhance_slide_content
  by_cases h : usableLines r = []
  · rw [if_neg (by simp [h])]
    refine ⟨fun hc => absurd h hc, fun _ => ⟨rfl, by rw [List.length_take, Nat.min_comm]⟩, ?_⟩
    simp only [ne_eq, List.take_eq_nil_iff]
    push_neg
    exact ⟨by omega, ho⟩
  · rw [if_pos (by simpa using h)]
    have hlen : 1 ≤ (usableLines r).length := List.length_pos.mpr h
    refine ⟨fun _ => ⟨rfl, ?_, ?_⟩, fun hc => absurd hc h, ?_⟩
    · rw [List.length_take]
      omega
    · rw [List.length_take]
      omega
    · simp only [ne_eq, List.take_eq_nil_iff]
      push_neg
      exact ⟨by omega, h⟩

/-- Witness for C2 (amended) at a one-bullet outline and an empty LLM
reply. -/
theorem enhance_never_empties_amended_witness :
    (["alpha"] : List String) ≠ [] ∧
    ((usableLines "" ≠ [] →
        enhance_slide_content ["alpha"] "" = (usableLines "").take 4 ∧
        1 ≤ (enhance_slide_content ["alpha"] "").length ∧
        (enhance_slide_content ["alpha"] "").length ≤ 4) ∧
      (usableLines "" = [] →
        enhance_slide_content ["alpha"] "" = (["alpha"] : List String).take 4 ∧
        (enhance_slide_content ["alpha"] "").length =
          min (["alpha"] : List String).length 4) ∧
      enhance_slide_content ["alpha"] "" ≠ []) :=
  ⟨by decide, enhance_never_empties_amended ["alpha"] "" (by decide)⟩

/-- C1 counterexample: a syntactically valid JSON reply with an empty
`slides` array parses successfully and is returned verbatim by
`create_ppt_skeleton`, so the returned skeleton violates the fixed
5-slide template — the template is only guaranteed on parse failure. -/
theorem skeleton_template_cex :
    create_ppt_skeleton emptySlidesResponse "q" = Json.jObj [("slides", Json.jArr [])] ∧
    skeletonOk (create_ppt_skeleton emptySlidesResponse "q") = false :=
  ⟨rfl, rfl⟩

/-- C1 amended: whenever JSON parsing of the cleaned LLM response fails,
`create_ppt_skeleton` returns the hardcoded fallback skeleton, whose
`slides` array has exactly 5 entries with types in the fixed order
(title, content, chart, chart, content); a successfully parsed response
is returned as-is with no template enforcement. -/
theorem skeleton_fallback_on_parse_failure :
    ∀ (response question : String),
      json_loads (cleanSkeletonResponse response) = none →
      create_ppt_skeleton response question = fallback_skeleton question ∧
      skeletonOk (create_ppt_skeleton response question) = true ∧
      (slidesOf (create_ppt_skeleton response question)).map List.length = some 5 := by
  intro r q h
  unfold create_ppt_skeleton
  rw [h]
  exact ⟨rfl, rfl, rfl⟩

/-- Witness for C1 (amended) on a garbage LLM reply that fails to
parse. -/
theorem skeleton_fallback_on_parse_failure_witness :
    json_loads (cleanSkeletonResponse "Sure! Here is your deck") = none ∧
    (create_ppt_skeleton "Sure! Here is your deck" "which region sells most" =
        fallback_skeleton "which region sells most" ∧
      skeletonOk (create_ppt_skeleton "Sure! Here is your deck" "which region sells most") =
        true ∧
      (slidesOf (create_ppt_skeleton "Sure! Here is your deck" "which region sells most")).map
          List.length = some 5) :=
  ⟨rfl, skeleton_fallback_on_parse_failure "Sure! Here is your deck"
    "which region sells most" rfl⟩

/-- C4 counterexample: (a) with Plotly unavailable at import time the
override is skipped entirely — a question containing "slide 3" still
renders as bar when the classifier says bar, because line 48 delegates to
matplotlib without passing the chart type; (b) with Plotly available, a
question containing both "slide 3" and "slide 4" renders as pie even
though the slide-4 condition holds, because the slide-3 branch of the
`elif` chain is checked first. -/
theorem chart_override_cex :
    containsStr (pyLowerStr "please polish slide 3") "slide 3" = true ∧
    (generate_chart false false dfThree "please polish slide 3" "charts/chart_3.png"
      "bar" "bar").ctype = some "bar" ∧
    containsStr (pyLowerStr "slide 3 and slide 4 comparison") "slide 4" = true ∧
    (generate_chart true false dfThree "slide 3 and slide 4 comparison" "charts/chart_4.png"
      "bar" "bar").ctype = some "pie" :=
  ⟨rfl, rfl, rfl, rfl⟩

/-- C4 amended: when the Plotly backend is available, the per-slide
override wins over the classifier for every dataframe and classifier
reply, with the slide-3 rule checked first: a question containing
"slide 3" (case-insensitive) or a path containing "chart_3" always
renders pie; otherwise a question containing "slide 4" or a path
containing "chart_4" always renders bar — whether or not the Plotly
renderer itself then falls back to matplotlib. When Plotly is unavailable
at import time the override is skipped and the classifier decides. -/
theorem chart_override_wins_when_plotly_available :
    ∀ (plotlyRaises : Bool) (df : DataFrame) (question path aiResp1 aiResp2 : String),
      ((containsStr (pyLowerStr question) "slide 3" = true ∨
          containsStr path "chart_3" = true) →
        (generate_chart true plotlyRaises df question path aiResp1 aiResp2).ctype =
          some "pie") ∧
      (¬(containsStr (pyLowerStr question) "slide 3" = true ∨
          containsStr path "chart_3" = true) →
        (containsStr (pyLowerStr question) "slide 4" = true ∨
          containsStr path "chart_4" = true) →
        (generate_chart true plotlyRaises df question path aiResp1 aiResp2).ctype =
          some "bar") := by
  intro raises df q path a1 a2
  constructor
  · intro h3
    show (plotlyTry raises (sample25 (prepare df).1) (prepare df).2
      (overrideType q path (some (determine_chart_type a1))) a2).ctype = some "pie"
    rw [show overrideType q path (some (determine_chart_type a1)) = some "pie" by
      unfold overrideType; rw [if_pos h3]]
    exact plotlyTry_ctype_pie ..
  · intro h3 h4
    show (plotlyTry raises (sample25 (prepare df).1) (prepare df).2
      (overrideType q path (some (determine_chart_type a1))) a2).ctype = some "bar"
    rw [show overrideType q path (some (determine_chart_type a1)) = some "bar" by
      unfold overrideType; rw [if_neg h3, if_pos h4]]
    exact plotlyTry_ctype_bar ..

/-- Witness for C4 (amended): a chart_3 path forces pie and a chart_4
path forces bar, at a concrete dataframe and classifier reply "bar". -/
theorem chart_override_wins_when_plotly_available_witness :
    (containsStr (pyLowerStr "sales overview") "slide 3" = true ∨
      containsStr "charts/chart_3.png" "chart_3" = true) ∧
    (generate_chart true false dfThree "sales overview" "charts/chart_3.png"
      "bar" "bar").ctype = some "pie" ∧
    (generate_chart true false dfThree "sales overview" "charts/chart_4.png"
      "bar" "bar").ctype = some "bar" :=
  ⟨Or.inr rfl,
    (chart_override_wins_when_plotly_available false dfThree "sales overview"
      "charts/chart_3.png" "bar" "bar").1 (Or.inr rfl),
    (chart_override_wins_when_plotly_available false dfThree "sales overview"
      "charts/chart_4.png" "bar" "bar").2 (by decide) (Or.inr rfl)⟩

/-- C6 counterexample: with Plotly unavailable at import time, a 26-row
table reaches the matplotlib backend untruncated (line 48 passes the full
dataframe), so the rendered bar chart encodes all 26 rows — more than the
claimed 25-row cap. -/
theorem chart_rows_uncapped_cex :
    (generate_chart false false dfBig26 "total sales" "charts/chart_4.png"
      "bar" "bar").encRows.length = 26 ∧
    ¬(generate_chart false false dfBig26 "total sales" "charts/chart_4.png"
      "bar" "bar").encRows.length ≤ 25 := by
  constructor
  · rfl
  · decide

/-- C6 amended: whenever the Plotly backend is available, the data
encoded in the chart comes from at most the first 25 rows of the
(prepared) result table, in the Plotly renderer and in its
exception-fallback matplotlib renderer alike; when Plotly is unavailable
at import time the matplotlib backend receives the full table with no
25-row truncation. -/
theorem chart_rows_capped_when_plotly_available :
    ∀ (plotlyRaises : Bool) (df : DataFrame) (question path aiResp : String)
      (ct : Option String),
      1 ≤ df.cols.length →
      (create_plotly_chart true plotlyRaises df question path ct aiResp).encRows.length ≤ 25 ∧
      ∀ r ∈ (create_plotly_chart true plotlyRaises df question path ct aiResp).encRows,
        r ∈ (prepare df).1.rows.take 25 := by
  intro raises df q path a ct _
  have h := plotlyTry_rows raises (sample25 (prepare df).1) (prepare df).2
    (overrideType q path ct) a
  have hr := sample25_rows (prepare df).1
  constructor
  · show (plotlyTry raises (sample25 (prepare df).1) (prepare df).2
      (overrideType q path ct) a).encRows.length ≤ 25
    calc (plotlyTry raises (sample25 (prepare df).1) (prepare df).2
          (overrideType q path ct) a).encRows.length
        ≤ (sample25 (prepare df).1).rows.length := h.1
      _ = ((prepare df).1.rows.take 25).length := by rw [hr]
      _ ≤ 25 := List.length_take_le ..
  · intro r hrm
    rw [← hr]
    exact h.2 r hrm

/-- Witness for C6 (amended) at a concrete 26-row table: with Plotly
available the encoded rows are capped. -/
theorem chart_rows_capped_when_plotly_available_witness :
    1 ≤ dfBig26.cols.length ∧
    ((create_plotly_chart true false dfBig26 "total sales" "charts/chart_4.png"
        (some "bar") "bar").encRows.length ≤ 25 ∧
      ∀ r ∈ (create_plotly_chart true false dfBig26 "total sales" "charts/chart_4.png"
        (some "bar") "bar").encRows,
        r ∈ (prepare dfBig26).1.rows.take 25) :=
  ⟨by decide, chart_rows_capped_when_plotly_available false dfBig26 "total sales"
    "charts/chart_4.png" "bar" (some "bar") (by decide)⟩

/-- C5: a rendered pie chart never encodes more than 8 categories, in
either backend and on every pipeline path; in both backends the rows
selected for the pie are exactly `nlargest(8, y)` when the second (y)
column's dtype is numeric and the first 8 rows otherwise, with the
matplotlib backend assigning equal unit weights in the non-numeric case;
and the rows kept by `nlargest` are the largest by the y column's value
(every kept row's key is at least every dropped row's key). -/
theorem pie_chart_category_cap :
    (∀ (plotlyAvailable plotlyRaises : Bool) (df : DataFrame)
        (question path aiResp1 aiResp2 : String),
      (generate_chart plotlyAvailable plotlyRaises df question path
        aiResp1 aiResp2).ctype = some "pie" →
      (generate_chart plotlyAvailable plotlyRaises df question path
        aiResp1 aiResp2).encRows.length ≤ 8) ∧
    (∀ (df : DataFrame) (aiResp : String), 2 ≤ df.cols.length →
      (create_enhanced_matplotlib_chart df (some "pie") aiResp).encRows =
        (if df.dtypes.getD 1 false = true then nlargest df.rows 1 8
         else df.rows.take 8) ∧
      (df.dtypes.getD 1 false = false →
        (create_enhanced_matplotlib_chart df (some "pie") aiResp).sizes =
          some ((df.rows.take 8).map (fun _ => Val.vInt 1)))) ∧
    (∀ (plotlyRaises : Bool) (df : DataFrame) (question path aiResp : String)
        (ct : Option String),
      (create_plotly_chart true plotlyRaises df question path ct aiResp).backend = .plotly →
      (create_plotly_chart true plotlyRaises df question path ct aiResp).ctype = some "pie" →
      (create_plotly_chart true plotlyRaises df question path ct aiResp).encRows =
        (if (sample25 (prepare df).1).dtypes.getD (prepare df).2 false = true
         then nlargest (sample25 (prepare df).1).rows (prepare df).2 8
         else (sample25 (prepare df).1).rows.take 8)) ∧
    (∀ (rows : List (List Val)) (j : Nat) (x : List Val), x ∈ nlargest rows j 8 →
      ∀ y ∈ (List.insertionSort (rowGE j) rows).drop 8,
        key (getCol y j) ≤ key (getCol x j)) := by
  refine ⟨?_, ?_, ?_, ?_⟩
  · intro avail raises df q path a1 a2
    cases avail
    · exact mplDraw_pie_cap df ((none : Option String).getD (determine_chart_type a2))
    · exact plotlyTry_pie_cap raises (sample25 (prepare df).1) (prepare df).2
        (overrideType q path (some (determine_chart_type a1))) a2
  · intro df a hcols
    constructor
    · show (mplDraw df "pie").encRows = _
      unfold mplDraw
      rw [if_pos hcols, if_neg (by decide), if_pos rfl]
      split <;> rfl
    · intro hd
      show (mplDraw df "pie").sizes = _
      unfold mplDraw
      rw [if_pos hcols, if_neg (by decide), if_pos rfl, if_neg (by rw [hd]; decide)]
  · intro raises df q path a ct
    exact plotlyTry_pie_sel raises (sample25 (prepare df).1) (prepare df).2
      (overrideType q path ct) a
  · intro rows j x hx y hy
    have hs := List.sorted_insertionSort (rowGE j) rows
    rw [← List.take_append_drop 8 (List.insertionSort (rowGE j) rows)] at hs
    exact (List.pairwise_append.mp hs).2.2 x hx y hy

/-- Witness for C5 at a concrete table whose path forces a pie chart. -/
theorem pie_chart_category_cap_witness :
    (generate_chart true false dfThree "sales overview" "charts/chart_3.png"
      "bar" "bar").ctype = some "pie" ∧
    (generate_chart true false dfThree "sales overview" "charts/chart_3.png"
      "bar" "bar").encRows.length ≤ 8 :=
  ⟨rfl, pie_chart_category_cap.1 true false dfThree "sales overview"
    "charts/chart_3.png" "bar" "bar" rfl⟩

end PptGen
